import Mathlib

/-!
Verification of the regimen decision and dosage-lock engine of the
breast-cancer treatment-planning application.

The TypeScript sources are embedded shallowly:
JavaScript numbers are modelled as rationals, optional fields as `Option`,
JS truthiness tests as explicit helpers, and the React event handlers as
pure state-transition functions on an explicit `Patient` record.
Dates are modelled as integer day offsets (JS `Date.setDate` day arithmetic).
-/

namespace BCApp

/-- JS `Math.round`: nearest integer, halves toward positive infinity. -/
def jsRound (x : ℚ) : ℤ := ⌊x + 1/2⌋

/-- `Number(x.toFixed(2))`: x rounded to two decimal places.  All uses in the
source clamp the result to be nonnegative afterwards, so the behaviour of
`toFixed` on negative half-cent values is immaterial. -/
def round2 (x : ℚ) : ℚ := (jsRound (100 * x) : ℚ) / 100

/-- Decimal digits of a fraction in `[0,1)`, most significant first
(fuel-bounded; exact for the terminating decimals of the dose tables). -/
def fracDigits : ℕ → ℚ → String
  | 0, _ => ""
  | n + 1, q =>
    if q = 0 then ""
    else toString (⌊q * 10⌋.toNat % 10) ++ fracDigits n (q * 10 - ⌊q * 10⌋)

/-- JS template-literal rendering of a number value (exact for integers and
for the terminating decimals used by the dose tables). -/
def decStr (q : ℚ) : String :=
  let sgn := if q < 0 then "-" else ""
  let a := |q|
  let fr := a - ⌊a⌋
  if fr = 0 then sgn ++ toString ⌊a⌋.toNat
  else sgn ++ toString ⌊a⌋.toNat ++ "." ++ fracDigits 20 fr

/-- JS truthiness of an optional string: `undefined` and `""` are falsy.
Returns the string exactly when it is truthy. -/
def truthyStr : Option String → Option String
  | some s => if s = "" then none else some s
  | none => none

/-- JS truthiness of an optional number: `undefined` and `0` are falsy. -/
def optTruthy : Option ℚ → Bool
  | some v => v != 0
  | none => false

/-- JS `x || d` for a plain number `x`. -/
def jsOr (v d : ℚ) : ℚ := if v = 0 then d else v

/-- JS `x || d` for an optional natural-number field. -/
def jsOrNat : Option ℕ → ℕ → ℕ
  | some v, d => if v = 0 then d else v
  | none, d => d

/-- `String.prototype.includes`. -/
def strContains (s pat : String) : Bool := (s.splitOn pat).length > 1

/-- `String.prototype.toUpperCase` (ASCII case mapping, as in the unit tags),
written over the character list so that it evaluates in the kernel. -/
def strToUpper (s : String) : String := ⟨s.data.map Char.toUpper⟩

/-- `String.prototype.toLowerCase` (ASCII case mapping). -/
def strToLower (s : String) : String := ⟨s.data.map Char.toLower⟩

/-- Which dose slot is requested: the maintenance (standard) dose or the
first-cycle loading dose. -/
inductive DoseType
  | standard
  | loading
deriving DecidableEq, Repr

/-- `DrugDetail` from `types.ts` (doses as rationals, optional fields as
`Option`). -/
structure DrugDetail where
  name : String
  standardDose : ℚ
  loadingDose : Option ℚ := none
  unit : String
  lockedDose : Option String := none
  lockedLoadingDose : Option String := none
deriving DecidableEq, Repr

/-- The locked snapshot consulted for a slot.  This mirrors the two leading
guards of the dose-string functions
(`type === 'standard' && drug.lockedDose`,
`type === 'loading' && drug.lockedLoadingDose`): a snapshot is used exactly
when the corresponding field is JS-truthy. -/
def lockedFor (drug : DrugDetail) : DoseType → Option String
  | .standard => truthyStr drug.lockedDose
  | .loading => truthyStr drug.lockedLoadingDose

/-- The props/state in scope of `calculateDose` inside the `DosageCalculator`
component: parsed height/weight input strings (`none` = unparsable/absent),
the `bsa` state value, the optional patient age, the parsed serum-creatinine
prop, and the `isLocked` prop. -/
structure CalcEnv where
  height : Option ℚ
  weight : Option ℚ
  bsa : ℚ
  patientAge : Option ℚ
  scr : Option ℚ
  isLocked : Bool
deriving Repr

/-- The Stevenson body-surface-area formula as written in the sources:
`0.0061 * height + 0.0128 * weight - 0.1529`. -/
def bsaRaw (h w : ℚ) : ℚ := 0.0061 * h + 0.0128 * w - 0.1529

/-- The `bsa` state computed by the `useEffect` of `DosageCalculator` when
`h > 0 && w > 0`: `Math.max(0, Number(calculatedBsa.toFixed(2)))` — the raw
value is rounded to two decimals before being stored (and later used). -/
def bsaState (h w : ℚ) : ℚ := max 0 (round2 (bsaRaw h w))

/-- `calculateDose` from `DosageCalculator.tsx`. -/
def calculateDose (e : CalcEnv) (drug : DrugDetail) (t : DoseType) : String :=
  match lockedFor drug t with
  | some s => s
  | none =>
    let doseToUse : ℚ :=
      if t = .loading ∧ optTruthy drug.loadingDose then drug.loadingDose.getD 0
      else drug.standardDose
    let val : Option ℚ :=
      if drug.unit = "mg/m²" ∨ drug.unit = "mg/m2" then
        if 0 < e.bsa then some (jsRound (doseToUse * e.bsa) : ℚ) else none
      else if drug.unit = "mg/kg" then
        match e.weight with
        | some w => if 0 < w then some (jsRound (doseToUse * w) : ℚ) else none
        | none => none
      else if drug.unit = "AUC" then
        match e.patientAge, e.weight with
        | some a, some w =>
          if 0 < e.scr.getD 0 ∧ a ≠ 0 ∧ 0 < w then
            some (jsRound (doseToUse * (((140 - a) * w * 1.04) / e.scr.getD 0 + 25)) : ℚ)
          else none
        | _, _ => none
      else if drug.unit = "mg" then some doseToUse
      else none
    match val with
    | some v => decStr v ++ " mg"
    | none => "--"

/-- `RegimenStage` from `types.ts`. -/
structure RegimenStage where
  name : String
  cycles : ℕ
  drugs : List DrugDetail
deriving DecidableEq, Repr

/-- `RegimenOption` from `types.ts`.  Fields that none of the embedded
operations read (description, reasoning, recommended flag, pros/cons) are
omitted. -/
structure RegimenOption where
  id : String
  name : String
  cycle : String
  type : String
  totalCycles : Option ℕ := none
  frequencyDays : Option ℕ := none
  drugs : Option (List DrugDetail) := none
  stages : Option (List RegimenStage) := none
deriving DecidableEq, Repr

/-- `DetailedRegimenPlan` from `types.ts`: the four modality lists. -/
structure DetailedRegimenPlan where
  chemoOptions : List RegimenOption
  endocrineOptions : List RegimenOption
  targetOptions : List RegimenOption
  immuneOptions : List RegimenOption
deriving DecidableEq, Repr

/-- `SelectedRegimens` from `types.ts`. -/
structure SelectedRegimens where
  chemoId : Option String := none
  endocrineId : Option String := none
  targetId : Option String := none
  immuneId : Option String := none
deriving DecidableEq, Repr

/-- The slice of `ClinicalMarkers` read by the embedded operations: the
serum-creatinine field, parsed (`none` = absent/empty input). -/
structure Markers where
  serumCreatinine : Option ℚ := none
deriving DecidableEq, Repr

/-- The slice of `Patient` read and written by the embedded lock/unlock
operations. -/
structure Patient where
  height : Option ℚ := none
  weight : Option ℚ := none
  age : ℚ
  markers : Markers
  detailedPlan : Option DetailedRegimenPlan := none
  selectedRegimens : SelectedRegimens
  isPlanLocked : Bool := false
deriving DecidableEq, Repr

/-- The component scope available to `getDoseDisplay` inside
`AITreatmentAssistant`: the patient biometrics and age, the draft markers'
serum creatinine, and the `isLocked` flag. -/
structure AssistEnv where
  height : Option ℚ
  weight : Option ℚ
  age : ℚ
  scr : Option ℚ
  isLocked : Bool
deriving Repr

/-- `getDoseDisplay` from `AITreatmentAssistant.tsx` (first revision in the
file: lower-cased unit matching, `"--"` sentinel when serum creatinine is
missing for AUC dosing, `patient.age` used directly). -/
def getDoseDisplay (e : AssistEnv) (drug : DrugDetail) (isInitial : Bool) : String :=
  match lockedFor drug (if isInitial then .loading else .standard) with
  | some s => s
  | none =>
    let h := e.height.getD 0
    let w := e.weight.getD 0
    if h ≤ 0 ∨ w ≤ 0 then "--"
    else
      let bsa := max 0 (bsaRaw h w)
      let doseToUse :=
        if isInitial ∧ optTruthy drug.loadingDose then drug.loadingDose.getD 0
        else drug.standardDose
      let unit := strToLower drug.unit
      let val : Option ℚ :=
        if strContains unit "m2" || strContains unit "m²" then
          some (jsRound (doseToUse * bsa) : ℚ)
        else if strContains unit "kg" then some (jsRound (doseToUse * w) : ℚ)
        else if unit = "auc" then
          if 0 < e.scr.getD 0 then
            some (jsRound (doseToUse * (((140 - e.age) * w * 1.04) / e.scr.getD 0 + 25)) : ℚ)
          else none
        else some doseToUse
      match val with
      | some v => if 0 < v then decStr v ++ " mg" else "--"
      | none => "--"

/-- `getDoseDisplay` from the second revision of `AITreatmentAssistant.tsx`:
upper-cased unit matching, `patient.age || 50` default, and the
requires-serum-creatinine sentinel `"需血肌酐"` for AUC dosing. -/
def getDoseDisplayRev (e : AssistEnv) (drug : DrugDetail) (isInitial : Bool) : String :=
  match lockedFor drug (if isInitial then .loading else .standard) with
  | some s => s
  | none =>
    let h := e.height.getD 0
    let w := e.weight.getD 0
    if h ≤ 0 ∨ w ≤ 0 then "--"
    else
      let bsa := max 0 (bsaRaw h w)
      let doseToUse :=
        if isInitial ∧ optTruthy drug.loadingDose then drug.loadingDose.getD 0
        else drug.standardDose
      let unit := strToUpper drug.unit
      let fin : ℚ → String := fun v => if 0 < v then decStr v ++ " mg" else "--"
      if strContains unit "M2" || strContains unit "M²" then
        fin (jsRound (doseToUse * bsa) : ℚ)
      else if strContains unit "KG" then fin (jsRound (doseToUse * w) : ℚ)
      else if unit = "AUC" then
        if 0 < e.scr.getD 0 then
          fin (jsRound (doseToUse * (((140 - jsOr e.age 50) * w * 1.04) / e.scr.getD 0 + 25)) : ℚ)
        else "需血肌酐"
      else fin doseToUse

/-- The `AssistEnv` in scope of the lock handlers, built from the patient and
the draft markers (`isLocked = !!patient.isPlanLocked`). -/
def assistEnv (p : Patient) (m : Markers) : AssistEnv :=
  { height := p.height, weight := p.weight, age := p.age,
    scr := m.serumCreatinine, isLocked := p.isPlanLocked }

/-- `handleSaveDetailedPlan` from `PatientDetail.tsx` (identical in every
revision of the file): writes the plan, the selection, the lock flag and the
marker snapshot onto the patient; nothing else is touched and no locked-dose
field is cleared. -/
def handleSaveDetailedPlan (p : Patient) (plan : DetailedRegimenPlan)
    (sel : SelectedRegimens) (isLocked : Bool) (markersToSave : Option Markers) : Patient :=
  { p with detailedPlan := some plan, selectedRegimens := sel,
           isPlanLocked := isLocked, markers := markersToSave.getD p.markers }

/-- `handleUnlock` from `AITreatmentAssistant.tsx`: after the confirm dialog,
saves the current component plan (initialised from the patient) with
`isLocked = false`.  The source guards the non-null assertion
`detailedPlan!`; a missing plan leaves the patient unchanged. -/
def handleUnlock (p : Patient) (localMarkers : Markers) (confirmed : Bool) : Patient :=
  if confirmed then
    match p.detailedPlan with
    | some plan => handleSaveDetailedPlan p plan p.selectedRegimens false (some localMarkers)
    | none => p
  else p

/-- One step of `processCategory`'s drug mutation in `handleConfirmLock`:
`drug.lockedDose = getDoseDisplay(drug, false)` followed by
`if (drug.loadingDose) drug.lockedLoadingDose = getDoseDisplay(drug, true)`
(the second call sees the already-updated record, as in the source). -/
def lockDrug (e : AssistEnv) (d : DrugDetail) : DrugDetail :=
  let d1 := { d with lockedDose := some (getDoseDisplay e d false) }
  if optTruthy d1.loadingDose then
    { d1 with lockedLoadingDose := some (getDoseDisplay e d1 true) }
  else d1

/-- `processCategory` from the first revision of `handleConfirmLock`
(`AITreatmentAssistant.tsx`): only the option whose id matches the selected id
(and which has a `drugs` array) gets its drugs' locked fields written. -/
def processCategory (e : AssistEnv) (selId : Option String)
    (opts : List RegimenOption) : List RegimenOption :=
  opts.map fun opt =>
    if selId = some opt.id ∧ opt.drugs.isSome then
      { opt with drugs := some ((opt.drugs.getD []).map (lockDrug e)) }
    else opt

/-- The deep-cloned, locked plan produced by the first revision of
`handleConfirmLock`. -/
def lockPlan (e : AssistEnv) (plan : DetailedRegimenPlan)
    (sel : SelectedRegimens) : DetailedRegimenPlan :=
  { chemoOptions := processCategory e sel.chemoId plan.chemoOptions,
    endocrineOptions := processCategory e sel.endocrineId plan.endocrineOptions,
    targetOptions := processCategory e sel.targetId plan.targetOptions,
    immuneOptions := processCategory e sel.immuneId plan.immuneOptions }

/-- The observable outcome of a lock attempt: each refusal is reported with
its own alert message in the source; `cancelled` is the user declining the
confirm dialog. -/
inductive LockOutcome
  | noPlan
  | missingBiometrics
  | missingScr
  | cancelled
  | locked
deriving DecidableEq, Repr

/-- `handleConfirmLock` from the first revision of `AITreatmentAssistant.tsx`
as a transition on the patient: refusal paths return before any state is
written back. -/
def handleConfirmLock (p : Patient) (localMarkers : Markers) (confirmed : Bool) :
    Patient × LockOutcome :=
  match p.detailedPlan with
  | none => (p, .noPlan)
  | some plan =>
    if !(optTruthy p.height) || !(optTruthy p.weight) then (p, .missingBiometrics)
    else if !confirmed then (p, .cancelled)
    else
      (handleSaveDetailedPlan p (lockPlan (assistEnv p localMarkers) plan p.selectedRegimens)
        p.selectedRegimens true (some localMarkers), .locked)

/-- `scrPositive`: the serum-creatinine precondition tested by the second
revision of `handleConfirmLock`
(`!localMarkers.serumCreatinine || parseFloat(...) <= 0` refuses). -/
def scrPositive (m : Markers) : Bool :=
  match m.serumCreatinine with
  | some v => decide (0 < v)
  | none => false

/-- Whether a regimen contains a renal-clearance (AUC) dosed drug, including
sequential stages (`needsScr` test of the second revision). -/
def optNeedsScr (opt : RegimenOption) : Bool :=
  (opt.drugs.getD []).any (fun d => strToUpper d.unit == "AUC")
  || (opt.stages.getD []).any (fun s => s.drugs.any (fun d => strToUpper d.unit == "AUC"))

/-- `optionsToCalculate`: the per-modality selected regimens, in modality
order, absent selections dropped. -/
def optionsToCalculate (plan : DetailedRegimenPlan) (sel : SelectedRegimens) :
    List RegimenOption :=
  ([plan.chemoOptions.find? (fun o => sel.chemoId == some o.id),
    plan.endocrineOptions.find? (fun o => sel.endocrineId == some o.id),
    plan.targetOptions.find? (fun o => sel.targetId == some o.id),
    plan.immuneOptions.find? (fun o => sel.immuneId == some o.id)]).filterMap id

/-- `lockDrug` of the second revision (uses `getDoseDisplayRev`). -/
def lockDrugRev (e : AssistEnv) (d : DrugDetail) : DrugDetail :=
  let d1 := { d with lockedDose := some (getDoseDisplayRev e d false) }
  if optTruthy d1.loadingDose then
    { d1 with lockedLoadingDose := some (getDoseDisplayRev e d1 true) }
  else d1

/-- `processRegimen` of the second revision: locks the flat drug list and
every stage's drug list of a selected regimen. -/
def processRegimenRev (e : AssistEnv) (opt : RegimenOption) : RegimenOption :=
  let opt1 :=
    if opt.drugs.isSome then
      { opt with drugs := some ((opt.drugs.getD []).map (lockDrugRev e)) }
    else opt
  if opt1.stages.isSome then
    { opt1 with stages := some ((opt1.stages.getD []).map fun s =>
        { s with drugs := s.drugs.map (lockDrugRev e) }) }
  else opt1

/-- The locked plan produced by the second revision's categories loop. -/
def lockPlanRev (e : AssistEnv) (plan : DetailedRegimenPlan)
    (sel : SelectedRegimens) : DetailedRegimenPlan :=
  { chemoOptions := plan.chemoOptions.map fun o =>
      if sel.chemoId == some o.id then processRegimenRev e o else o,
    endocrineOptions := plan.endocrineOptions.map fun o =>
      if sel.endocrineId == some o.id then processRegimenRev e o else o,
    targetOptions := plan.targetOptions.map fun o =>
      if sel.targetId == some o.id then processRegimenRev e o else o,
    immuneOptions := plan.immuneOptions.map fun o =>
      if sel.immuneId == some o.id then processRegimenRev e o else o }

/-- `handleConfirmLock` from the second revision of
`AITreatmentAssistant.tsx` (the one with the serum-creatinine precondition),
as a transition on the patient. -/
def handleConfirmLockRev (p : Patient) (m : Markers) (confirmed : Bool) :
    Patient × LockOutcome :=
  match p.detailedPlan with
  | none => (p, .noPlan)
  | some plan =>
    if !(optTruthy p.height) || !(optTruthy p.weight) then (p, .missingBiometrics)
    else if (optionsToCalculate plan p.selectedRegimens).any optNeedsScr
            && !(scrPositive m) then (p, .missingScr)
    else if !confirmed then (p, .cancelled)
    else
      (handleSaveDetailedPlan p
        (lockPlanRev (assistEnv p m) plan p.selectedRegimens)
        p.selectedRegimens true (some m), .locked)

/-- The props/state in scope of `ScheduleGenerator` (`ScheduleGenerator.tsx`):
patient biometrics/age, parsed serum creatinine, the lock flag, and the
per-type start dates as integer day offsets. -/
structure SchedEnv where
  patientHeight : Option ℚ
  patientWeight : Option ℚ
  patientAge : Option ℚ
  scr : Option ℚ
  isLocked : Bool
  startDates : String → Option ℤ

/-- `getDoseString` from `ScheduleGenerator.tsx`.  Division by a zero
creatinine value (JS `Infinity`) is outside the modelled state space; the
guard only tests presence, as in the source. -/
def getDoseString (e : SchedEnv) (drug : DrugDetail) (isInitial : Bool) : String :=
  match lockedFor drug (if isInitial then .loading else .standard) with
  | some s =>
    if isInitial then drug.name ++ "(首剂) " ++ s else drug.name ++ " " ++ s
  | none =>
    if optTruthy e.patientHeight ∧ optTruthy e.patientWeight then
      let h := e.patientHeight.getD 0
      let w := e.patientWeight.getD 0
      let bsa := max 0 (bsaRaw h w)
      let doseToUse :=
        if isInitial ∧ optTruthy drug.loadingDose then drug.loadingDose.getD 0
        else drug.standardDose
      let label := if isInitial ∧ optTruthy drug.loadingDose then "(首剂)" else ""
      let res : ℚ → String := fun v =>
        drug.name ++ label ++ " " ++
          (if 0 < v then decStr v ++ "mg" else decStr drug.standardDose ++ drug.unit)
      if drug.unit = "mg/m²" ∨ drug.unit = "mg/m2" then res (jsRound (doseToUse * bsa) : ℚ)
      else if drug.unit = "mg/kg" then res (jsRound (doseToUse * w) : ℚ)
      else if drug.unit = "AUC" ∧ e.scr.isSome ∧ optTruthy e.patientAge then
        res (jsRound (doseToUse *
          (((140 - e.patientAge.getD 0) * w * 1.04) / e.scr.getD 0 + 25)) : ℚ)
      else if drug.unit = "mg" then res doseToUse
      else if drug.unit = "qd" ∨ drug.unit = "bid" then
        drug.name ++ " " ++ decStr drug.standardDose ++ " " ++ drug.unit
      else res 0
    else drug.name ++ " " ++ decStr drug.standardDose ++ drug.unit

/-- `TreatmentEvent` draft (no id yet) as produced by the schedule generator;
dates are integer day offsets. -/
structure TreatmentEvent where
  title : String
  description : String
  date : ℤ
  type : String
  completed : Bool
  dosageDetails : Option String
deriving DecidableEq, Repr

/-- `startDates[option.type] || startDates.chemo`. -/
def optionStart (e : SchedEnv) (opt : RegimenOption) : ℤ :=
  ((e.startDates opt.type).orElse fun _ => e.startDates "chemo").getD 0

/-- The events generated for one selected regimen by `handleGenerate`
(`ScheduleGenerator.tsx`): `cycles = totalCycles || 1`,
`frequency = frequencyDays || 21`, `safeCycles = Math.min(cycles, 100)`,
event `i` dated `start + i * frequency`. -/
def perOptionEvents (e : SchedEnv) (opt : RegimenOption) : List TreatmentEvent :=
  let cycles := jsOrNat opt.totalCycles 1
  let frequency := jsOrNat opt.frequencyDays 21
  let start := optionStart e opt
  let safeCycles := min cycles 100
  (List.range safeCycles).map fun (i : ℕ) =>
    let isInitial := i = 0
    { title := opt.name ++ " (第" ++ toString (i + 1) ++ "周期)",
      description := opt.cycle,
      date := start + (i : ℤ) * (frequency : ℤ),
      type := "medication",
      completed := false,
      dosageDetails := opt.drugs.map fun ds =>
        String.intercalate " + " (ds.map fun d => getDoseString e d isInitial) }

/-- Stable insertion into a date-sorted list (equal dates keep their order,
matching the stable JS array sort). -/
def insertByDate (ev : TreatmentEvent) : List TreatmentEvent → List TreatmentEvent
  | [] => [ev]
  | x :: xs => if x.date ≤ ev.date then x :: insertByDate ev xs else ev :: x :: xs

/-- Stable sort of the generated events ascending by date. -/
def sortByDate : List TreatmentEvent → List TreatmentEvent
  | [] => []
  | x :: xs => insertByDate x (sortByDate xs)

/-- `handleGenerate` from `ScheduleGenerator.tsx`: expand every selected
regimen and sort the merged list ascending by date. -/
def handleGenerate (e : SchedEnv) (opts : List RegimenOption) : List TreatmentEvent :=
  sortByDate (opts.map (perOptionEvents e)).flatten

/-- `MolecularSubtype` from `types.ts`. -/
inductive MolecularSubtype
  | LuminalA
  | LuminalB
  | LuminalBLike
  | HER2Positive
  | HER2Enriched
  | TripleNegative
  | Unknown
deriving DecidableEq, Repr

/-- The classified marker values consumed by the pathway recommender of
`App.tsx` (`generateLocalTreatmentOptions`): the string parsers
(`getTumorSize`, `getNodeStage`, `getGrade`, `getKi67`, `getPercentage`,
`getRSScore`) are pre-composed, so the recommender is embedded over its
classified inputs. -/
structure ClassifiedMarkers where
  tSize : ℚ
  nStage : ℕ
  grade : ℕ
  ki67 : ℚ
  erVal : ℚ
  prVal : ℚ
  her2Is3Plus : Bool
  rsScore : Option ℚ
deriving DecidableEq, Repr

/-- `isHER2`: subtype HER2-positive or HER2 stain `3+`. -/
def isHER2 (st : MolecularSubtype) (m : ClassifiedMarkers) : Bool :=
  st == .HER2Positive || m.her2Is3Plus

/-- `isTNBC`. -/
def isTNBC (st : MolecularSubtype) : Bool := st == .TripleNegative

/-- `isHRPositive`: either receptor percentage above zero. -/
def isHRPositive (m : ClassifiedMarkers) : Bool :=
  decide (0 < m.erVal) || decide (0 < m.prVal)

/-- `isClinicalHighRisk`: grade 3, Ki-67 at least 30, or node-positive. -/
def isClinicalHighRisk (m : ClassifiedMarkers) : Bool :=
  decide (m.grade = 3) || decide (30 ≤ m.ki67) || decide (1 ≤ m.nStage)

/-- `needNeoadjuvant`: (HER2-positive or triple-negative) with tumor above
2 cm or node-positive. -/
def needNeoadjuvant (st : MolecularSubtype) (m : ClassifiedMarkers) : Bool :=
  (isHER2 st m || isTNBC st) && (decide (2 < m.tSize) || decide (1 ≤ m.nStage))

/-- `luminalNeoadjuvant`: HR-positive, HER2-negative, N3 or (N2 and G3). -/
def luminalNeoadjuvant (st : MolecularSubtype) (m : ClassifiedMarkers) : Bool :=
  isHRPositive m && !(isHER2 st m)
    && (decide (3 ≤ m.nStage) || (decide (2 ≤ m.nStage) && decide (m.grade = 3)))

/-- The chemo-waiver decision of `generateLocalTreatmentOptions` in
`App.tsx`: the pair `(canWaiveChemo, waiverHighlyRecommended)`. -/
def chemoWaiver (st : MolecularSubtype) (m : ClassifiedMarkers) : Bool × Bool :=
  if isHRPositive m && !(isHER2 st m) && decide (m.nStage ≤ 1) then
    match m.rsScore with
    | some rs =>
      if rs < 11 then (true, true)
      else if 11 ≤ rs ∧ rs < 26 then
        if isClinicalHighRisk m = true ∧ 21 ≤ rs then (true, false)
        else (true, decide (rs < 18))
      else (false, false)
    | none =>
      if m.nStage = 0 ∧ m.tSize ≤ 1 ∧ m.grade ≤ 2 ∧ m.ki67 < 15 then (true, true)
      else if isClinicalHighRisk m = false then (true, false)
      else (false, false)
  else (false, false)

/-- `generateLocalTreatmentOptions` from `App.tsx`, reduced to the ordered
list of pathway ids with their recommended flags (the only data the claims
consult). -/
def generateLocalTreatmentOptions (st : MolecularSubtype) (m : ClassifiedMarkers) :
    List (String × Bool) :=
  let cw := chemoWaiver st m
  if needNeoadjuvant st m || luminalNeoadjuvant st m then
    [("path_neoadjuvant", true), ("path_surgery", false)]
  else if cw.2 then
    [("path_conservative", true), ("path_surgery", false)]
  else if cw.1 then
    [("path_surgery", true), ("path_conservative", false)]
  else
    [("path_surgery", true), ("path_neoadjuvant", false)]

/-- Chemo-waiver eligibility for a patient whose genomic recurrence score is
present and equal to `rs`: the conservative (waive-chemo) pathway appears in
the recommender's output. -/
def waiverEligible (st : MolecularSubtype) (m : ClassifiedMarkers) (rs : ℚ) : Prop :=
  "path_conservative" ∈
    (generateLocalTreatmentOptions st { m with rsScore := some rs }).map Prod.fst

/-- The four modality lists of a plan paired with their selected ids. -/
def planCategories (plan : DetailedRegimenPlan) (sel : SelectedRegimens) :
    List (List RegimenOption × Option String) :=
  [(plan.chemoOptions, sel.chemoId), (plan.endocrineOptions, sel.endocrineId),
   (plan.targetOptions, sel.targetId), (plan.immuneOptions, sel.immuneId)]

/-- The claimed lock invariant, decidably: every drug of every regimen in
every modality carries a (truthy) locked-dose string exactly when its owning
regimen is the selected one of its modality. -/
def lockInvariantHolds (plan : DetailedRegimenPlan) (sel : SelectedRegimens) : Bool :=
  (planCategories plan sel).all fun pr =>
    pr.1.all fun o => (o.drugs.getD []).all fun d =>
      ((truthyStr d.lockedDose).isSome == (pr.2 == some o.id))

/-- No drug of the list carries a locked-dose value. -/
def optsLockedDoseClean (opts : List RegimenOption) : Bool :=
  opts.all fun o => (o.drugs.getD []).all fun d => d.lockedDose == none

/-- No drug anywhere in the plan carries a locked-dose value (the state of a
freshly generated plan that has never been locked). -/
def planLockedDoseClean (plan : DetailedRegimenPlan) : Bool :=
  optsLockedDoseClean plan.chemoOptions && optsLockedDoseClean plan.endocrineOptions
    && optsLockedDoseClean plan.targetOptions && optsLockedDoseClean plan.immuneOptions

/-- A locked (snapshot-carrying) drug, as left behind after a lock. -/
def drugEpirubicinLocked : DrugDetail :=
  { name := "表柔比星", standardDose := 90, unit := "mg/m²", lockedDose := some "143 mg" }

/-- The selected chemo regimen of `patientLockedEx`. -/
def regimenLockedEx : RegimenOption :=
  { id := "c_act", name := "AC-T", cycle := "q3w x 8", type := "chemo",
    totalCycles := some 8, frequencyDays := some 21,
    drugs := some [drugEpirubicinLocked] }

/-- A patient in the LOCKED state whose selected chemo drug carries the
snapshot `"143 mg"`. -/
def patientLockedEx : Patient :=
  { height := some 160, weight := some 60, age := 50,
    markers := { serumCreatinine := some 60 },
    detailedPlan := some
      { chemoOptions := [regimenLockedEx],
        endocrineOptions := [], targetOptions := [], immuneOptions := [] },
    selectedRegimens := { chemoId := some "c_act" }, isPlanLocked := true }

/-- A plain surface-area-dosed chemo regimen. -/
def regimenTC : RegimenOption :=
  { id := "c_tc", name := "TC", cycle := "q3w x 4", type := "chemo",
    totalCycles := some 4, frequencyDays := some 21,
    drugs := some [{ name := "多西他赛", standardDose := 75, unit := "mg/m²" }] }

/-- An unlocked patient whose height field holds a negative number. -/
def patientNegHeight : Patient :=
  { height := some (-160), weight := some 60, age := 50, markers := {},
    detailedPlan := some
      { chemoOptions := [regimenTC],
        endocrineOptions := [], targetOptions := [], immuneOptions := [] },
    selectedRegimens := { chemoId := some "c_tc" }, isPlanLocked := false }

/-- A chemo regimen containing a renal-clearance (AUC) dosed drug. -/
def regimenTCbHP : RegimenOption :=
  { id := "c_tchp", name := "TCbHP", cycle := "q3w x 6", type := "chemo",
    totalCycles := some 6, frequencyDays := some 21,
    drugs := some [{ name := "多西他赛", standardDose := 75, unit := "mg/m²" },
                   { name := "卡铂", standardDose := 6, unit := "AUC" }] }

/-- An unlocked patient with an AUC-dosed selection and a serum-creatinine
value supplied. -/
def patientAuc : Patient :=
  { height := some 160, weight := some 60, age := 50,
    markers := { serumCreatinine := some 60 },
    detailedPlan := some
      { chemoOptions := [regimenTCbHP],
        endocrineOptions := [], targetOptions := [], immuneOptions := [] },
    selectedRegimens := { chemoId := some "c_tchp" }, isPlanLocked := false }

/-- Regimen `ra`: clean, surface-area dosed. -/
def regimenRa : RegimenOption :=
  { id := "ra", name := "AC-T", cycle := "q3w", type := "chemo",
    drugs := some [{ name := "表柔比星", standardDose := 90, unit := "mg/m²" }] }

/-- Regimen `rb` carrying a stale locked dose from an earlier lock cycle. -/
def regimenRbStale : RegimenOption :=
  { id := "rb", name := "TC", cycle := "q3w", type := "chemo",
    drugs := some [{ name := "多西他赛", standardDose := 75, unit := "mg/m²",
                     lockedDose := some "999 mg" }] }

/-- Regimen `rb` without any locked value. -/
def regimenRbClean : RegimenOption :=
  { id := "rb", name := "TC", cycle := "q3w", type := "chemo",
    drugs := some [{ name := "多西他赛", standardDose := 75, unit := "mg/m²" }] }

/-- An unlocked patient whose plan still carries a stale snapshot
(`"999 mg"`) on a regimen that is not the selected one — the state left by a
previous lock/unlock cycle, since unlock never clears snapshots. -/
def patientStaleSnapshot : Patient :=
  { height := some 160, weight := some 60, age := 50, markers := {},
    detailedPlan := some
      { chemoOptions := [regimenRa, regimenRbStale],
        endocrineOptions := [], targetOptions := [], immuneOptions := [] },
    selectedRegimens := { chemoId := some "ra" }, isPlanLocked := false }

/-- The plan of `patientCleanEx`: two chemo regimens, no locked values. -/
def planCleanEx : DetailedRegimenPlan :=
  { chemoOptions := [regimenRa, regimenRbClean],
    endocrineOptions := [], targetOptions := [], immuneOptions := [] }

/-- An unlocked patient with a clean (never-locked) plan. -/
def patientCleanEx : Patient :=
  { height := some 160, weight := some 60, age := 50, markers := {},
    detailedPlan := some planCleanEx,
    selectedRegimens := { chemoId := some "ra" }, isPlanLocked := false }

/-- A concrete schedule environment: chemo start on day 0. -/
def schedEnv0 : SchedEnv :=
  { patientHeight := some 160, patientWeight := some 60, patientAge := some 50,
    scr := none, isLocked := false,
    startDates := fun t => if t = "chemo" then some 0 else none }

/-- A daily regimen with an adversarially large `totalCycles` (5000). -/
def optManyCycles : RegimenOption :=
  { id := "e_daily", name := "来曲唑", cycle := "qd", type := "endocrine",
    totalCycles := some 5000, frequencyDays := some 1 }

/-- A regimen with `frequencyDays` absent and two cycles. -/
def optNoFreq : RegimenOption :=
  { id := "x", name := "X", cycle := "once", type := "chemo",
    totalCycles := some 2 }

lemma append_mg_ne (s : String) : s ++ " mg" ≠ "" := by
  intro h
  have h1 : (s ++ " mg").length = s.length + (" mg" : String).length :=
    String.length_append s " mg"
  rw [h] at h1
  have h2 : ("" : String).length = 0 := rfl
  have h3 : (" mg" : String).length = 3 := rfl
  omega

lemma decStr_intCast (n : ℤ) (hn : 0 ≤ n) : decStr (n : ℚ) = toString n.toNat := by
  have h0 : ¬((n : ℚ) < 0) := by exact_mod_cast not_lt.mpr hn
  have habs : |(n : ℚ)| = (n : ℚ) := abs_of_nonneg (not_lt.mp h0)
  unfold decStr
  simp [h0, habs, Int.floor_intCast]

lemma calculateDose_m2_core (e : CalcEnv) (nm u : String) (d : ℚ) (ld : Option ℚ)
    (lld : Option String) (hu : u = "mg/m²" ∨ u = "mg/m2") (hb : 0 < e.bsa) :
    calculateDose e ⟨nm, d, ld, u, none, lld⟩ .standard
      = decStr (jsRound (d * e.bsa)) ++ " mg" := by
  rcases hu with hu | hu <;> subst hu <;>
    simp [calculateDose, lockedFor, truthyStr, hb]

lemma bsaRaw_160_60 : bsaRaw 160 60 = 1.5911 := by norm_num [bsaRaw]

lemma bsaState_160_60 : bsaState 160 60 = 1.59 := by
  have h : round2 (bsaRaw 160 60) = 1.59 := by
    norm_num [round2, bsaRaw, jsRound]
  unfold bsaState
  rw [h, max_eq_right (by norm_num : (0 : ℚ) ≤ 1.59)]

lemma truthyStr_some_ne {x : Option String} {s : String}
    (h : truthyStr x = some s) : s ≠ "" := by
  cases x with
  | none => simp [truthyStr] at h
  | some t =>
    by_cases ht : t = ""
    · simp [truthyStr, ht] at h
    · simp [truthyStr, ht] at h
      subst h
      exact ht

lemma lockedFor_some_ne {d : DrugDetail} {t : DoseType} {s : String}
    (h : lockedFor d t = some s) : s ≠ "" := by
  cases t <;> exact truthyStr_some_ne h

lemma getDoseDisplay_ne_empty (e : AssistEnv) (d : DrugDetail) (b : Bool) :
    getDoseDisplay e d b ≠ "" := by
  unfold getDoseDisplay
  cases hl : lockedFor d (if b then .loading else .standard) with
  | some s => exact lockedFor_some_ne hl
  | none =>
    dsimp only
    split
    · decide
    · split
      · split
        · exact append_mg_ne _
        · decide
      · decide

/-- C1: evaluation of the unlock transition at a LOCKED patient.  The claim
says unlock clears `lockedDose`/`lockedLoadingDose` on every drug; the code
(`handleUnlock` → `handleSaveDetailedPlan`) only flips `isPlanLocked` and
saves the plan unchanged, so the snapshot `"143 mg"` survives the unlock. -/
theorem handleUnlock_keeps_snapshots :
    (handleUnlock patientLockedEx { serumCreatinine := some 60 } true).isPlanLocked = false
    ∧ (handleUnlock patientLockedEx { serumCreatinine := some 60 } true).detailedPlan
        = patientLockedEx.detailedPlan
    ∧ ((handleUnlock patientLockedEx { serumCreatinine := some 60 } true).detailedPlan.map
        fun pl => pl.chemoOptions.all fun o =>
          (o.drugs.getD []).all fun d => d.lockedDose == some "143 mg") = some true := by
  refine ⟨rfl, rfl, ?_⟩
  decide

/-- C2: if a JS-truthy locked value exists for the requested slot, the dose
computation returns that stored string verbatim, independently of every
biometric/lab input (the environment is universally quantified), and the
schedule formatter embeds the same stored string without recomputation. -/
theorem calculateDose_locked_verbatim (e : CalcEnv) (e2 : SchedEnv)
    (drug : DrugDetail) (s : String) :
    (truthyStr drug.lockedDose = some s → calculateDose e drug .standard = s)
    ∧ (truthyStr drug.lockedLoadingDose = some s → calculateDose e drug .loading = s)
    ∧ (truthyStr drug.lockedDose = some s →
        getDoseString e2 drug false = drug.name ++ " " ++ s)
    ∧ (truthyStr drug.lockedLoadingDose = some s →
        getDoseString e2 drug true = drug.name ++ "(首剂) " ++ s) := by
  refine ⟨fun h => ?_, fun h => ?_, fun h => ?_, fun h => ?_⟩ <;>
    simp [calculateDose, getDoseString, lockedFor, h]

/-- Witness for C2: a drug whose standard slot is locked to `"222 mg"` and
loading slot to `"333 mg"` returns exactly those strings, under two different
environments. -/
theorem calculateDose_locked_verbatim_witness :
    calculateDose ⟨some 150, some 50, 1.2, none, none, false⟩
        ⟨"X", 75, none, "mg/m²", some "222 mg", some "333 mg"⟩ .standard = "222 mg"
    ∧ calculateDose ⟨some 199, some 99, 2.9, none, none, true⟩
        ⟨"X", 75, none, "mg/m²", some "222 mg", some "333 mg"⟩ .loading = "333 mg" := by
  constructor
  · exact (calculateDose_locked_verbatim ⟨some 150, some 50, 1.2, none, none, false⟩
      schedEnv0 ⟨"X", 75, none, "mg/m²", some "222 mg", some "333 mg"⟩ "222 mg").1
      (by decide)
  · exact (calculateDose_locked_verbatim ⟨some 199, some 99, 2.9, none, none, true⟩
      schedEnv0 ⟨"X", 75, none, "mg/m²", some "222 mg", some "333 mg"⟩ "333 mg").2.1
      (by decide)

/-- C10: the three per-drug dose-string functions never read the lock flag in
scope — two calls differing only in that flag return identical strings — and
a drug with a populated locked field keeps returning the snapshot even when
the flag is false. -/
theorem dose_strings_ignore_lock_flag :
    (∀ (e : CalcEnv) (b : Bool) (drug : DrugDetail) (t : DoseType),
        calculateDose { e with isLocked := b } drug t = calculateDose e drug t)
    ∧ (∀ (e : SchedEnv) (b : Bool) (drug : DrugDetail) (i : Bool),
        getDoseString { e with isLocked := b } drug i = getDoseString e drug i)
    ∧ (∀ (e : AssistEnv) (b : Bool) (drug : DrugDetail) (i : Bool),
        getDoseDisplay { e with isLocked := b } drug i = getDoseDisplay e drug i)
    ∧ (∀ (e : CalcEnv) (drug : DrugDetail) (s : String),
        truthyStr drug.lockedDose = some s →
          calculateDose { e with isLocked := false } drug .standard = s) := by
  refine ⟨fun e b drug t => rfl, fun e b drug i => rfl, fun e b drug i => rfl,
    fun e drug s h => ?_⟩
  simp [calculateDose, lockedFor, h]

/-- Witness for C10: a drug with a populated `lockedDose` returns the
snapshot with the lock flag off. -/
theorem dose_strings_ignore_lock_flag_witness :
    calculateDose ⟨some 160, some 60, 1.59, some 50, some 60, false⟩
        ⟨"表柔比星", 90, none, "mg/m²", some "143 mg", none⟩ .standard = "143 mg" := by
  exact (dose_strings_ignore_lock_flag).2.2.2
    ⟨some 160, some 60, 1.59, some 50, some 60, true⟩
    ⟨"表柔比星", 90, none, "mg/m²", some "143 mg", none⟩ "143 mg" (by decide)

/-- C5 (amended): the expander emits exactly
`min (totalCycles if nonzero else 1) 100` events per regimen — the hard cap
in `ScheduleGenerator.tsx` is 100. -/
theorem perOptionEvents_count (e : SchedEnv) (opt : RegimenOption) :
    (perOptionEvents e opt).length = min (jsOrNat opt.totalCycles 1) 100 := by
  unfold perOptionEvents
  dsimp only
  rw [List.length_map, List.length_range]

/-- Counterexample for C5 as stated: for `totalCycles = 5000` the expander
emits 100 events, but the claim requires `min(5000, HARD_CAP)` events with
`HARD_CAP ≥ ≈1825`, i.e. at least 1825 events; `100 < 1825`. -/
theorem schedule_cap_is_100 :
    (perOptionEvents schedEnv0 optManyCycles).length = 100 ∧ 100 < 1825 := by
  constructor
  · unfold perOptionEvents
    dsimp only
    rw [List.length_map, List.length_range]
    decide
  · norm_num

/-- C8 (amended): event `i` of a regimen is dated
`start + i × (frequencyDays or 21)`: a `frequencyDays` of 0/absent defaults
to 21 days, and the number of occurrences is independent of it. -/
theorem perOptionEvents_dates (e : SchedEnv) (opt : RegimenOption)
    (i : Fin (perOptionEvents e opt).length) :
    ((perOptionEvents e opt).get i).date
      = optionStart e opt + (i.val : ℤ) * ((jsOrNat opt.frequencyDays 21 : ℕ) : ℤ) := by
  rcases i with ⟨i, hi⟩
  unfold perOptionEvents at hi ⊢
  dsimp only at hi ⊢
  rw [List.length_map, List.length_range] at hi
  rw [List.get_eq_getElem]
  simp only [List.getElem_map, List.getElem_range]

/-- Counterexample for C8 as stated: a regimen with `frequencyDays` absent
and `totalCycles = 2` emits two occurrences (not a single one), 21 days
apart. -/
theorem schedule_default_frequency_21 :
    (perOptionEvents schedEnv0 optNoFreq).length = 2
    ∧ (perOptionEvents schedEnv0 optNoFreq).map TreatmentEvent.date = [0, 21] := by
  decide

/-- C7: for an AUC drug (no locked value) with creatinine, age and weight
available, the dose is `round(targetAUC × (((140 − age) × weight × 1.04) /
serumCreatinine + 25))` milligrams, independent of height and BSA; when the
creatinine input is missing, the sentinel `"--"` is returned, never zero. -/
theorem calculateDose_auc_formula (nm : String) (targetAUC : ℚ) (ld : Option ℚ)
    (lld : Option String) (hh : Option ℚ) (b : ℚ) (L : Bool) :
    (∀ a w scrv : ℚ, a ≠ 0 → 0 < w → 0 < scrv →
      calculateDose ⟨hh, some w, b, some a, some scrv, L⟩
          ⟨nm, targetAUC, ld, "AUC", none, lld⟩ .standard
        = decStr (jsRound (targetAUC * (((140 - a) * w * 1.04) / scrv + 25))) ++ " mg")
    ∧ (∀ (aw ww : Option ℚ),
        calculateDose ⟨hh, ww, b, aw, none, L⟩
          ⟨nm, targetAUC, ld, "AUC", none, lld⟩ .standard = "--") := by
  constructor
  · intro a w scrv ha hw hscr
    simp [calculateDose, lockedFor, truthyStr, hscr, hw, ha]
  · intro aw ww
    cases aw <;> cases ww <;> simp [calculateDose, lockedFor, truthyStr]

/-- Witness for C7: the worked example — age 50, weight 60, creatinine 60,
target AUC 6 — yields `"712 mg"`, and the missing-creatinine sentinel. -/
theorem calculateDose_auc_formula_witness :
    calculateDose ⟨none, some 60, 0, some 50, some 60, false⟩
        ⟨"卡铂", 6, none, "AUC", none, none⟩ .standard = "712 mg"
    ∧ calculateDose ⟨none, some 60, 0, some 50, none, false⟩
        ⟨"卡铂", 6, none, "AUC", none, none⟩ .standard = "--" := by
  constructor
  · have h := (calculateDose_auc_formula "卡铂" 6 none none none 0 false).1
      50 60 60 (by norm_num) (by norm_num) (by norm_num)
    rw [h]
    have hv : jsRound (6 * (((140 - 50) * 60 * 1.04) / 60 + 25)) = 712 := by
      norm_num [jsRound]
    rw [hv, decStr_intCast 712 (by norm_num)]
    rfl
  · exact (calculateDose_auc_formula "卡铂" 6 none none none 0 false).2 (some 50) (some 60)

/-- C6 (amended): `DosageCalculator` computes the raw Stevenson BSA, rounds
it to two decimals (`toFixed(2)`) and clamps at 0 when storing it, and this
rounded value is both the displayed BSA and the one used in the
surface-area dose: dose = round(perUnitDose × rounded BSA).  At
h=160, w=60 the raw BSA is 1.5911 (not ≈1.0271) and the stored/displayed
value is 1.59. -/
theorem calculateDose_uses_rounded_bsa (h w : ℚ) (nm u : String) (d : ℚ)
    (ld : Option ℚ) (lld : Option String) (age scr : Option ℚ) (L : Bool)
    (hu : u = "mg/m²" ∨ u = "mg/m2") (hb : 0 < bsaState h w) :
    calculateDose ⟨some h, some w, bsaState h w, age, scr, L⟩
        ⟨nm, d, ld, u, none, lld⟩ .standard
      = decStr (jsRound (d * bsaState h w)) ++ " mg"
    ∧ bsaState h w = max 0 (round2 (bsaRaw h w))
    ∧ bsaRaw 160 60 = 1.5911 ∧ bsaState 160 60 = 1.59 := by
  exact ⟨calculateDose_m2_core ⟨some h, some w, bsaState h w, age, scr, L⟩ nm u d ld lld hu hb,
    rfl, bsaRaw_160_60, bsaState_160_60⟩

/-- Witness for C6 (amended): at h=160, w=60 a 1000 mg/m² drug gets
`round(1000 × 1.59) = 1590` mg from the rounded BSA. -/
theorem calculateDose_uses_rounded_bsa_witness :
    calculateDose ⟨some 160, some 60, bsaState 160 60, none, none, false⟩
        ⟨"X", 1000, none, "mg/m²", none, none⟩ .standard = "1590 mg" := by
  have hb : 0 < bsaState 160 60 := by rw [bsaState_160_60]; norm_num
  have h := (calculateDose_uses_rounded_bsa 160 60 "X" "mg/m²" 1000 none none
    none none false (Or.inl rfl) hb).1
  rw [h, bsaState_160_60]
  have hv : jsRound ((1000 : ℚ) * 1.59) = 1590 := by norm_num [jsRound]
  rw [hv, decStr_intCast 1590 (by norm_num)]
  rfl

/-- Counterexample for C6 as stated: the claim requires
dose = round(perUnitDose × unrounded BSA); at h=160, w=60 with a 1000 mg/m²
drug the code produces `"1590 mg"` while `round(1000 × bsaRaw) = 1591`, and
the claimed example value `BSA(160,60) ≈ 1.0271` is wrong: the formula gives
1.5911. -/
theorem bsa_rounding_divergence :
    calculateDose ⟨some 160, some 60, bsaState 160 60, none, none, false⟩
        ⟨"X", 1000, none, "mg/m²", none, none⟩ .standard = "1590 mg"
    ∧ jsRound (1000 * bsaRaw 160 60) = 1591
    ∧ bsaRaw 160 60 = 1.5911 ∧ ¬ (bsaRaw 160 60 = 1.0271) := by
  have hb : 0 < bsaState 160 60 := by rw [bsaState_160_60]; norm_num
  refine ⟨?_, ?_, bsaRaw_160_60, ?_⟩
  · rw [calculateDose_m2_core _ "X" "mg/m²" 1000 none none (Or.inl rfl) hb,
      bsaState_160_60]
    have hv : jsRound ((1000 : ℚ) * 1.59) = 1590 := by norm_num [jsRound]
    rw [hv, decStr_intCast 1590 (by norm_num)]
    rfl
  · rw [bsaRaw_160_60]
    norm_num [jsRound]
  · rw [bsaRaw_160_60]
    norm_num

/-- C3 (amended): the lock transition of the revision with the
serum-creatinine check is all-or-nothing — every refusal leaves the patient
unchanged and is reported with its specific reason — and it succeeds only
when the confirm dialog was accepted, height and weight are JS-truthy
(present and nonzero — not necessarily positive), and, whenever some
selected regimen contains an AUC-dosed drug, the serum-creatinine value is
present and positive. -/
theorem handleConfirmLockRev_preconditions (p : Patient) (m : Markers) (c : Bool) :
    ((handleConfirmLockRev p m c).2 ≠ LockOutcome.locked →
        (handleConfirmLockRev p m c).1 = p)
    ∧ ((handleConfirmLockRev p m c).2 = LockOutcome.locked →
        c = true ∧ optTruthy p.height = true ∧ optTruthy p.weight = true
        ∧ ∀ plan, p.detailedPlan = some plan →
            (optionsToCalculate plan p.selectedRegimens).any optNeedsScr = true →
            scrPositive m = true)
    ∧ ((handleConfirmLockRev p m c).2 = LockOutcome.missingBiometrics →
        optTruthy p.height = false ∨ optTruthy p.weight = false)
    ∧ ((handleConfirmLockRev p m c).2 = LockOutcome.missingScr →
        scrPositive m = false
        ∧ ∀ plan, p.detailedPlan = some plan →
            (optionsToCalculate plan p.selectedRegimens).any optNeedsScr = true) := by
  cases hp : p.detailedPlan with
  | none => simp [handleConfirmLockRev, hp]
  | some plan =>
    simp only [handleConfirmLockRev, hp]
    by_cases h1 : (!(optTruthy p.height) || !(optTruthy p.weight)) = true
    · rw [if_pos h1]
      have h1d : optTruthy p.height = false ∨ optTruthy p.weight = false := by
        simpa using h1
      exact ⟨fun _ => rfl, by simp, fun _ => h1d, by simp⟩
    · rw [if_neg h1]
      by_cases h2 : ((optionsToCalculate plan p.selectedRegimens).any optNeedsScr
          && !(scrPositive m)) = true
      · rw [if_pos h2]
        simp only [Bool.and_eq_true, Bool.not_eq_true'] at h2
        refine ⟨fun _ => rfl, by simp, by simp, fun _ => ⟨h2.2, ?_⟩⟩
        intro plan2 hplan2
        injection hplan2 with he
        subst he
        exact h2.1
      · rw [if_neg h2]
        by_cases h3 : (!c) = true
        · rw [if_pos h3]
          exact ⟨fun _ => rfl, by simp, by simp, by simp⟩
        · rw [if_neg h3]
          have hc : c = true := by
            cases c
            · simp at h3
            · rfl
          have hhw : optTruthy p.height = true ∧ optTruthy p.weight = true := by
            constructor <;>
              [cases hx : optTruthy p.height; cases hx : optTruthy p.weight] <;>
              first
                | rfl
                | (exfalso; exact h1 (by simp [hx]))
          refine ⟨fun hne => absurd rfl hne,
            fun _ => ⟨hc, hhw.1, hhw.2, ?_⟩, by simp, by simp⟩
          intro plan2 hplan2 hany
          injection hplan2 with he
          subst he
          simp only [Bool.and_eq_true, Bool.not_eq_true'] at h2
          rcases hs : scrPositive m with _ | _
          · exact absurd ⟨hany, hs⟩ h2
          · rfl

/-- Counterexample for C3 as stated: the code only requires `patient.height`
to be JS-truthy, so a patient whose height is −160 (not `> 0`) is locked
successfully and mutated. -/
theorem lock_succeeds_without_positive_height :
    (handleConfirmLockRev patientNegHeight { } true).2 = LockOutcome.locked
    ∧ (handleConfirmLockRev patientNegHeight { } true).1.isPlanLocked = true
    ∧ patientNegHeight.height = some (-160)
    ∧ ((-160 : ℚ) < 0) := by
  refine ⟨by decide, by decide, rfl, by norm_num⟩

/-- Witness for C3 (amended): locking `patientAuc` (an AUC-dosed selection
with serum creatinine 60) succeeds, and the theorem yields the success
conditions. -/
theorem handleConfirmLockRev_preconditions_witness :
    (handleConfirmLockRev patientAuc { serumCreatinine := some 60 } true).2
      = LockOutcome.locked
    ∧ optTruthy patientAuc.height = true ∧ optTruthy patientAuc.weight = true
    ∧ scrPositive { serumCreatinine := some 60 } = true := by
  have hlock : (handleConfirmLockRev patientAuc { serumCreatinine := some 60 } true).2
      = LockOutcome.locked := by decide
  have h := (handleConfirmLockRev_preconditions patientAuc
    { serumCreatinine := some 60 } true).2.1 hlock
  exact ⟨hlock, h.2.1, h.2.2.1, h.2.2.2 _ rfl (by decide)⟩

lemma lockDrug_lockedDose (e : AssistEnv) (d : DrugDetail) :
    (lockDrug e d).lockedDose = some (getDoseDisplay e d false) := by
  simp only [lockDrug]
  split <;> rfl

lemma processCategory_inv (e : AssistEnv) (selId : Option String)
    (opts : List RegimenOption)
    (hc : optsLockedDoseClean opts = true) :
    ((processCategory e selId opts).all fun o => (o.drugs.getD []).all fun d =>
      ((truthyStr d.lockedDose).isSome == (selId == some o.id))) = true := by
  rw [List.all_eq_true]
  intro o ho
  rw [List.all_eq_true]
  intro d hd
  rw [processCategory, List.mem_map] at ho
  obtain ⟨o0, ho0, rfl⟩ := ho
  rw [optsLockedDoseClean, List.all_eq_true] at hc
  have hc0 := hc o0 ho0
  rw [List.all_eq_true] at hc0
  by_cases hsel : selId = some o0.id ∧ o0.drugs.isSome
  · rw [if_pos hsel] at hd ⊢
    simp only [Option.getD_some] at hd
    rw [List.mem_map] at hd
    obtain ⟨d0, hd0, rfl⟩ := hd
    rw [lockDrug_lockedDose]
    have hne := getDoseDisplay_ne_empty e d0 false
    simp [truthyStr, hne, hsel.1]
  · rw [if_neg hsel] at hd ⊢
    by_cases hid : selId = some o0.id
    · have hdr : o0.drugs = none := by
        cases hdrugs : o0.drugs
        · rfl
        · exact absurd ⟨hid, by rw [hdrugs]; rfl⟩ hsel
      rw [hdr] at hd
      simp at hd
    · have hcd := hc0 d hd
      rw [beq_iff_eq] at hcd
      simp [truthyStr, hcd, hid]

lemma lockPlan_inv (e : AssistEnv) (plan : DetailedRegimenPlan)
    (sel : SelectedRegimens) (hclean : planLockedDoseClean plan = true) :
    lockInvariantHolds (lockPlan e plan sel) sel = true := by
  rw [planLockedDoseClean] at hclean
  simp only [Bool.and_eq_true] at hclean
  obtain ⟨⟨⟨h1, h2⟩, h3⟩, h4⟩ := hclean
  rw [lockInvariantHolds, planCategories]
  simp only [lockPlan, List.all_cons, List.all_nil, Bool.and_eq_true, Bool.and_true]
  exact ⟨processCategory_inv _ _ _ h1, processCategory_inv _ _ _ h2,
    processCategory_inv _ _ _ h3, processCategory_inv _ _ _ h4⟩

/-- C4 (amended): starting from a plan with no locked-dose values (the state
the unlock transition is supposed to guarantee), a successful lock leaves a
drug carrying a (truthy) locked-dose string exactly when its owning regimen
was the selected one of its modality. -/
theorem handleConfirmLock_snapshot_iff_selected (p : Patient) (m : Markers)
    (plan : DetailedRegimenPlan) (hplan : p.detailedPlan = some plan)
    (hclean : planLockedDoseClean plan = true)
    (hlock : (handleConfirmLock p m true).2 = LockOutcome.locked) :
    ((handleConfirmLock p m true).1.detailedPlan.map fun pl =>
        lockInvariantHolds pl p.selectedRegimens) = some true := by
  simp only [handleConfirmLock, hplan] at hlock ⊢
  by_cases h1 : (!(optTruthy p.height) || !(optTruthy p.weight)) = true
  · rw [if_pos h1] at hlock
    simp at hlock
  · rw [if_neg h1] at hlock ⊢
    rw [if_neg (show ¬((!(true : Bool)) = true) by simp)] at hlock ⊢
    simp only [handleSaveDetailedPlan]
    show some (lockInvariantHolds (lockPlan (assistEnv p m) plan p.selectedRegimens)
      p.selectedRegimens) = some true
    rw [lockPlan_inv _ _ _ hclean]

/-- Counterexample for C4 as stated: locking `patientStaleSnapshot` (whose
non-selected regimen `rb` still carries `"999 mg"` from an earlier lock
cycle, which unlock never cleared) succeeds, and afterwards the drug of the
non-selected regimen `rb` still carries a truthy locked-dose string even
though only `ra` was selected — the claimed iff fails. -/
theorem lock_keeps_stale_snapshot_on_unselected :
    (handleConfirmLock patientStaleSnapshot { } true).2 = LockOutcome.locked
    ∧ ((handleConfirmLock patientStaleSnapshot { } true).1.detailedPlan.map fun pl =>
        (pl.chemoOptions.drop 1).map fun o =>
          (o.id, (o.drugs.getD []).map fun d => (truthyStr d.lockedDose).isSome))
      = some [("rb", [true])]
    ∧ patientStaleSnapshot.selectedRegimens.chemoId = some "ra" := by
  refine ⟨by decide, by decide, rfl⟩

/-- Witness for C4 (amended): locking the clean two-regimen plan of
`patientCleanEx` satisfies the snapshot-iff-selected invariant. -/
theorem handleConfirmLock_snapshot_iff_selected_witness :
    ((handleConfirmLock patientCleanEx { } true).1.detailedPlan.map fun pl =>
        lockInvariantHolds pl patientCleanEx.selectedRegimens) = some true := by
  exact handleConfirmLock_snapshot_iff_selected patientCleanEx { } planCleanEx rfl
    (by decide) (by decide)

lemma chemoWaiver_snd_imp_fst (st : MolecularSubtype) (m : ClassifiedMarkers) :
    (chemoWaiver st m).2 = true → (chemoWaiver st m).1 = true := by
  obtain ⟨ts, ns, gr, ki, er, pr, h2p, rs0⟩ := m
  unfold chemoWaiver
  cases rs0 <;> dsimp only <;> split_ifs <;> simp

lemma conservative_mem_iff (st : MolecularSubtype) (m : ClassifiedMarkers) :
    ("path_conservative" ∈ (generateLocalTreatmentOptions st m).map Prod.fst) ↔
      ((needNeoadjuvant st m || luminalNeoadjuvant st m) = false
       ∧ (chemoWaiver st m).1 = true) := by
  unfold generateLocalTreatmentOptions
  by_cases h1 : (needNeoadjuvant st m || luminalNeoadjuvant st m) = true
  · rw [if_pos h1]
    simp [h1]
  · rw [if_neg h1]
    have h1f : (needNeoadjuvant st m || luminalNeoadjuvant st m) = false := by
      cases hx : (needNeoadjuvant st m || luminalNeoadjuvant st m)
      · rfl
      · exact absurd hx h1
    by_cases h2 : (chemoWaiver st m).2 = true
    · rw [if_pos h2]
      simp [h1f, chemoWaiver_snd_imp_fst st m h2]
    · rw [if_neg h2]
      by_cases h3 : (chemoWaiver st m).1 = true
      · rw [if_pos h3]
        simp [h1f, h3]
      · rw [if_neg h3]
        simp [h1f, h3]

lemma needNeoadjuvant_rs_update (st : MolecularSubtype) (m : ClassifiedMarkers)
    (rs : ℚ) :
    needNeoadjuvant st { m with rsScore := some rs } = needNeoadjuvant st m := rfl

lemma luminalNeoadjuvant_rs_update (st : MolecularSubtype) (m : ClassifiedMarkers)
    (rs : ℚ) :
    luminalNeoadjuvant st { m with rsScore := some rs } = luminalNeoadjuvant st m := rfl

lemma chemoWaiver_fst_score (st : MolecularSubtype) (m : ClassifiedMarkers) (rs : ℚ) :
    (chemoWaiver st { m with rsScore := some rs }).1 = true ↔
      ((isHRPositive m && !(isHER2 st m) && decide (m.nStage ≤ 1)) = true
       ∧ rs < 26) := by
  obtain ⟨ts, ns, gr, ki, er, pr, h2p, rs0⟩ := m
  unfold chemoWaiver
  dsimp only [isHRPositive, isHER2, isClinicalHighRisk]
  split_ifs with hg hlt hmid hrisk
  · exact ⟨fun _ => ⟨hg, by linarith⟩, fun _ => rfl⟩
  · exact ⟨fun _ => ⟨hg, hmid.2⟩, fun _ => rfl⟩
  · exact ⟨fun _ => ⟨hg, hmid.2⟩, fun _ => rfl⟩
  · constructor
    · intro h
      simp at h
    · rintro ⟨-, h26⟩
      push_neg at hlt hmid
      exact absurd h26 (not_lt.mpr (hmid hlt))
  · constructor
    · intro h
      simp at h
    · rintro ⟨hgate, -⟩
      exact absurd hgate hg

/-- C9: decreasing the genomic recurrence score, holding every other
classified marker and the subtype fixed, never moves a patient from
waiver-eligible to waiver-ineligible. -/
theorem waiver_monotone_in_rs (st : MolecularSubtype) (m : ClassifiedMarkers)
    (r r2 : ℚ) (hle : r2 ≤ r) (he : waiverEligible st m r) :
    waiverEligible st m r2 := by
  rw [waiverEligible, conservative_mem_iff, chemoWaiver_fst_score,
    needNeoadjuvant_rs_update, luminalNeoadjuvant_rs_update] at he ⊢
  exact ⟨he.1, he.2.1, lt_of_le_of_lt hle he.2.2⟩

/-- Witness for C9: a hormone-receptor-positive N0 patient eligible at score
25 stays eligible at score 5. -/
theorem waiver_monotone_in_rs_witness :
    waiverEligible MolecularSubtype.LuminalA
      ⟨1, 0, 2, 10, 75, 30, false, none⟩ 5 := by
  exact waiver_monotone_in_rs MolecularSubtype.LuminalA
    ⟨1, 0, 2, 10, 75, 30, false, none⟩ 25 5 (by norm_num)
    (by unfold waiverEligible; decide)

end BCApp
